/-
Verification development for the Ndmm-Project repository (shelter map with
live routing).  The frontend hook `useLiveRoute.js` supplies a haversine
distance function, a nearest-shelter selector and a route-request throttle;
the backend `index.js` supplies an Express gateway with a coordinate
validator, a short-TTL route cache, a per-client rate limiter and shelter
endpoints.  Each definition below is a shallow embedding of the
corresponding JavaScript source; JavaScript numbers are modelled as exact
fractions (for the string-parsing backend code) or reals (for the
trigonometric frontend code), ignoring floating-point rounding.
-/
import Mathlib

namespace Backend

/-- JavaScript whitespace recognised by `String.prototype.trim` and by
string-to-number coercion (the characters relevant to this code base:
space, tab, line feed, carriage return, vertical tab, form feed,
no-break space). -/
def isJsWhitespace (c : Char) : Bool :=
  c == ' ' || c == '\t' || c == '\n' || c == '\r' ||
  c == Char.ofNat 11 || c == Char.ofNat 12 || c == Char.ofNat 0xA0

/-- `String.prototype.trim`: drop leading and trailing whitespace. -/
def trimChars (cs : List Char) : List Char :=
  ((cs.dropWhile isJsWhitespace).reverse.dropWhile isJsWhitespace).reverse

/-- `String.prototype.split(',')`: split at every comma, keeping empty
pieces (so `","` splits into two empty strings, as in JavaScript). -/
def splitComma : List Char → List (List Char)
  | [] => [[]]
  | c :: rest =>
    if c = ',' then [] :: splitComma rest
    else
      match splitComma rest with
      | [] => [[c]]
      | p :: ps => (c :: p) :: ps

/-- A finite JavaScript number value, kept as an exact unnormalised
fraction `num / den` with `den` a positive integer (a power of the
parsing radix by construction).  Using a raw pair instead of `ℚ` keeps
every operation kernel-computable; `val` interprets it as a rational. -/
structure JsNum where
  num : ℤ
  den : ℕ
deriving DecidableEq

/-- The rational value of a parsed JavaScript number. -/
def JsNum.val (q : JsNum) : ℚ := (q.num : ℚ) / (q.den : ℚ)

/-- Read a maximal run of decimal digits: returns the value read, how many
digits were consumed, and the rest of the input. -/
def readDigits : List Char → ℕ → ℕ → ℕ × ℕ × List Char
  | c :: cs, acc, n =>
    if c.isDigit then readDigits cs (10 * acc + (c.toNat - 48)) (n + 1)
    else (acc, n, c :: cs)
  | [], acc, n => (acc, n, [])

/-- Numeric value of a digit character in an arbitrary radix
(`99` marks a non-digit). -/
def digitValue (c : Char) : ℕ :=
  if c.isDigit then c.toNat - 48
  else if 'a' ≤ c && c ≤ 'z' then c.toNat - 87
  else if 'A' ≤ c && c ≤ 'Z' then c.toNat - 55
  else 99

/-- Read a maximal run of digits in radix `r`. -/
def readRadix (r : ℕ) : List Char → ℕ → ℕ → ℕ × ℕ × List Char
  | c :: cs, acc, n =>
    if digitValue c < r then readRadix r cs (r * acc + digitValue c) (n + 1)
    else (acc, n, c :: cs)
  | [], acc, n => (acc, n, [])

/-- Parse a whole radix-`r` integer literal body (after `0x`/`0o`/`0b`);
the whole rest of the input must be digits. -/
def parseRadix (r : ℕ) (cs : List Char) : Option JsNum :=
  match readRadix r cs 0 0 with
  | (v, n, rest) => if n = 0 ∨ rest ≠ [] then none else some ⟨(v : ℤ), 1⟩

/-- Parse an unsigned decimal numeric literal `digits [. digits] [e|E [±] digits]`
exactly to the end of the input; `none` when the input is not such a
literal (JavaScript would produce `NaN`). -/
def parseDec (cs : List Char) : Option JsNum :=
  match readDigits cs 0 0 with
  | (ip, ic, r1) =>
    match (match r1 with
           | '.' :: rest => readDigits rest 0 0
           | _ => (0, 0, r1)) with
    | (fp, fc, r2) =>
      if ic + fc = 0 then none
      else
        let base : JsNum := ⟨(ip * 10 ^ fc + fp : ℕ), 10 ^ fc⟩
        match r2 with
        | [] => some base
        | e :: rest =>
          if e = 'e' ∨ e = 'E' then
            match (match rest with
                   | '+' :: r => (false, r)
                   | '-' :: r => (true, r)
                   | r => (false, r)) with
            | (esign, rest2) =>
              match readDigits rest2 0 0 with
              | (ev, ec, r3) =>
                if ec = 0 ∨ r3 ≠ [] then none
                else some (if esign then ⟨base.num, base.den * 10 ^ ev⟩
                           else ⟨base.num * 10 ^ ev, base.den⟩)
          else none

/-- The ECMAScript string-to-number coercion `Number(s)` restricted to the
outcomes this repository can observe: returns `some q` when `Number(s)`
is a finite number with value `q`, and `none` when it is `NaN` or
infinite (both make `Number.isFinite` fail in `isValidLonLatPair`).
Covers the whitespace/empty rules (`Number('') = Number(' ') = 0`),
signed decimal literals with fraction and exponent, and unsigned
`0x`/`0o`/`0b` radix literals; `Infinity` and any other string map to
`none`.  Values are exact (no float rounding or overflow). -/
def jsFiniteNumChars (cs : List Char) : Option JsNum :=
  match trimChars cs with
  | [] => some ⟨0, 1⟩
  | '+' :: rest => parseDec rest
  | '-' :: rest => (parseDec rest).map (fun q => ⟨-q.num, q.den⟩)
  | '0' :: c :: rest =>
    if c = 'x' ∨ c = 'X' then parseRadix 16 rest
    else if c = 'o' ∨ c = 'O' then parseRadix 8 rest
    else if c = 'b' ∨ c = 'B' then parseRadix 2 rest
    else parseDec ('0' :: c :: rest)
  | cs' => parseDec cs'

/-- `Number(s)` on a string, as `jsFiniteNumChars`. -/
def jsFiniteNumber (s : String) : Option JsNum :=
  jsFiniteNumChars s.data

/-- The comparison `q < z` between a parsed number and an integer bound,
by cross-multiplication with the positive denominator. -/
def JsNum.ltInt (q : JsNum) (z : ℤ) : Bool :=
  decide (q.num < z * (q.den : ℤ))

/-- The comparison `z < q` between an integer bound and a parsed number,
by cross-multiplication with the positive denominator. -/
def JsNum.gtInt (q : JsNum) (z : ℤ) : Bool :=
  decide (z * (q.den : ℤ) < q.num)

/-- `isValidLonLatPair` from `backend/index.js`: a non-empty string that
splits at `','` into exactly two pieces whose trimmed contents coerce to
finite numbers `lon` and `lat` with `lon ∈ [-180, 180]` and
`lat ∈ [-90, 90]`.  (The JavaScript guard `!pair` makes the empty string
invalid; `typeof pair !== 'string'` cannot arise in this model.) -/
def isValidLonLatPair (pair : String) : Bool :=
  if pair.data.isEmpty then false
  else
    match (splitComma pair.data).map trimChars with
    | [p0, p1] =>
      match jsFiniteNumChars p0, jsFiniteNumChars p1 with
      | some lon, some lat =>
        !(lon.ltInt (-180) || lon.gtInt 180 || lat.ltInt (-90) || lat.gtInt 90)
      | _, _ => false
    | _ => false


/-- Outcome of one call to the external OpenRouteService provider. -/
inductive ProviderResult where
  | ok (data : String)
  | httpError (status : ℕ) (body : String)
  | networkError (msg : String)
deriving DecidableEq

/-- An HTTP response of the route endpoint: a success payload carrying the
`fromCache` tag, or an error with a status code and message. -/
inductive RouteResp where
  | ok (fromCache : Bool) (data : String)
  | err (status : ℕ) (msg : String)
deriving DecidableEq

/-- The HTTP status code of a response (success responses are 200). -/
def RouteResp.statusCode : RouteResp → ℕ
  | .ok _ _ => 200
  | .err s _ => s

/-- One stored entry of the route cache: key, cached provider payload and
the time (in seconds) it was stored. -/
structure CacheEntry where
  key : String
  data : String
  storedAt : ℤ
deriving DecidableEq

/-- The in-memory route cache, newest entry first. -/
def RouteCache := List CacheEntry
deriving DecidableEq

/-- Modelled from the spec: the `node-cache` dependency (not part of this
repository) retrieves a stored value only "within a short time-to-live
window (default 30 s)" after it was cached — a lookup hits exactly when
an entry with that key exists and fewer than `ttl` seconds have elapsed
since it was stored. -/
def cacheGet (ttl now : ℤ) (c : RouteCache) (k : String) : Option String :=
  match List.find? (fun e => e.key == k) c with
  | some e => if now - e.storedAt < ttl then some e.data else none
  | none => none

/-- Modelled from the spec: storing in `node-cache` replaces any previous
entry under the same key; the new entry records the store time. -/
def cacheSet (c : RouteCache) (k d : String) (now : ℤ) : RouteCache :=
  (⟨k, d, now⟩ : CacheEntry) :: List.filter (fun e => e.key != k) c

/-- The `GET /api/route` handler body from `backend/index.js` (the part
after the rate-limit middleware).  Inputs: whether `ORS_API_KEY` is
configured, the cache TTL in seconds, the outcome the provider would
return if called, the current cache, the current time, and the raw
`start`/`end` query parameters (`none` = absent).  Output: the response,
the cache afterwards, and whether the external provider was called. -/
def handleRoute (hasKey : Bool) (ttl : ℤ) (prov : ProviderResult)
    (c : RouteCache) (now : ℤ) (startArg endArg : Option String) :
    RouteResp × RouteCache × Bool :=
  if !hasKey then (.err 500 "ORS_API_KEY not configured on server.", c, false)
  else
    match startArg, endArg with
    | some s, some e =>
      if s = "" ∨ e = "" then
        (.err 400 "start and end required as query params in \"lon,lat\" format", c, false)
      else if !(isValidLonLatPair s && isValidLonLatPair e) then
        (.err 400 "start and end must be valid lon,lat pairs (numbers). Example: start=77.5933,12.9721", c, false)
      else
        let key := s ++ "|" ++ e
        match cacheGet ttl now c key with
        | some d => (.ok true d, c, false)
        | none =>
          match prov with
          | .ok d => (.ok false d, cacheSet c key d now, true)
          | .httpError st _ => (.err st "OpenRouteService error", c, true)
          | .networkError _ => (.err 500 "Failed to fetch route", c, true)
    | _, _ =>
      (.err 400 "start and end required as query params in \"lon,lat\" format", c, false)

/-- Result of one request through the limiter-then-handler pipeline. -/
structure PipelineResult where
  allowed : Bool
  resp : RouteResp
  cache : RouteCache
  count : ℕ
deriving DecidableEq

/-- Modelled from the spec: the `express-rate-limit` dependency (not part
of this repository) "caps requests per client address to a fixed ceiling
(default 60) within a rolling window (default 15 minutes)"; within one
window it keeps a per-client hit count, rejects with 429 once the count
has reached the ceiling, and counts every incoming request.  The handler
runs only for admitted requests, so rejection is independent of the
cache contents. -/
def routePipeline (maxReq : ℕ) (hasKey : Bool) (ttl : ℤ) (prov : ProviderResult)
    (c : RouteCache) (now : ℤ) (startArg endArg : Option String) (count : ℕ) :
    PipelineResult :=
  if count < maxReq then
    let r := handleRoute hasKey ttl prov c now startArg endArg
    ⟨true, r.1, r.2.1, count + 1⟩
  else
    ⟨false, .err 429 "Too many requests, please try again later.", c, count + 1⟩

/-- The varying parts of one `GET /api/route` request in a sequence. -/
structure ReqArgs where
  prov : ProviderResult
  now : ℤ
  startArg : Option String
  endArg : Option String

/-- A sequence of `/api/route` requests from one client within one
rate-limit window, threading the hit count and the cache; returns for
each request whether the limiter admitted it and the response. -/
def pipelineRun (maxReq : ℕ) (hasKey : Bool) (ttl : ℤ) :
    ℕ → RouteCache → List ReqArgs → List (Bool × RouteResp)
  | _, _, [] => []
  | count, c, a :: as =>
    let r := routePipeline maxReq hasKey ttl a.prov c a.now a.startArg a.endArg count
    (r.allowed, r.resp) :: pipelineRun maxReq hasKey ttl r.count r.cache as

/-- A stored shelter of the backend: `{name, geometry.coordinates = [lon, lat]}`. -/
structure OrsShelter where
  name : String
  lon : JsNum
  lat : JsNum
deriving DecidableEq

/-- The static in-memory shelter list from `backend/index.js`. -/
def initialShelters : List OrsShelter :=
  [⟨"City Hall Shelter", ⟨775933, 10000⟩, ⟨129721, 10000⟩⟩,
   ⟨"Community Center", ⟨775980, 10000⟩, ⟨129755, 10000⟩⟩,
   ⟨"VIT Shelter", ⟨776000, 10000⟩, ⟨129680, 10000⟩⟩]

/-- The dev-only `POST /api/shelters` handler from `backend/index.js`:
400 when `name` is falsy (absent or empty) or `lon` or `lat` is not a
finite number (`none` models any non-number or non-finite value, since
`Number.isFinite` does not coerce); otherwise it appends the shelter and
answers 201.  No coordinate-range check is performed. -/
def postShelters (fs : List OrsShelter) (name : Option String)
    (lon lat : Option JsNum) : ℕ × List OrsShelter :=
  match name, lon, lat with
  | some n, some lo, some la =>
    if n = "" then (400, fs)
    else (201, fs ++ [⟨n, lo, la⟩])
  | _, _, _ => (400, fs)

/-- An operation exposed by the gateway, as far as the shelter state is
concerned.  `GET /api/route` only touches the route cache, so its
arguments are irrelevant here. -/
inductive GatewayOp where
  | health
  | listShelters
  | postShelter (name : Option String) (lon lat : Option JsNum)
  | route
deriving DecidableEq

/-- How one gateway operation transforms the shelter list.  The
`POST /api/shelters` handler is registered only when
`NODE_ENV !== 'production'`, so in production it is a 404 that leaves
the state unchanged. -/
def shelterStep (production : Bool) (fs : List OrsShelter) : GatewayOp → List OrsShelter
  | .postShelter n lo la => if production then fs else (postShelters fs n lo la).2
  | _ => fs

/-- `GET /api/shelters` returns the current shelter list. -/
def listShelters (fs : List OrsShelter) : List OrsShelter := fs

end Backend

namespace Frontend

open Real

/-- `Math.atan2(y, x)` on real numbers (signed zero and `NaN` do not
arise in this model): the angle of the point `(x, y)`, in
`(-π, π]`. -/
noncomputable def atan2 (y x : ℝ) : ℝ :=
  if 0 < x then arctan (y / x)
  else if x < 0 then
    (if 0 ≤ y then arctan (y / x) + π else arctan (y / x) - π)
  else if 0 < y then π / 2
  else if y < 0 then -(π / 2)
  else 0

/-- `toRad` from `distanceMeters` in `useLiveRoute.js`: degrees to radians. -/
noncomputable def toRad (d : ℝ) : ℝ := d * π / 180

/-- The local `a` of `distanceMeters`: the haversine of the central angle,
`sin²(dLat/2) + cos(lat1)·cos(lat2)·sin²(dLon/2)`. -/
noncomputable def havA (lat1 lon1 lat2 lon2 : ℝ) : ℝ :=
  sin (toRad (lat2 - lat1) / 2) ^ 2 +
    cos (toRad lat1) * cos (toRad lat2) * sin (toRad (lon2 - lon1) / 2) ^ 2

/-- `distanceMeters` from `useLiveRoute.js`: haversine great-circle
distance with mean Earth radius 6 371 000 m,
`R · 2 · atan2(√a, √(1−a))`. -/
noncomputable def distanceMeters (lat1 lon1 lat2 lon2 : ℝ) : ℝ :=
  6371000 * (2 * atan2 (Real.sqrt (havA lat1 lon1 lat2 lon2))
    (Real.sqrt (1 - havA lat1 lon1 lat2 lon2)))

/-- A GeoJSON point feature as the frontend consumes it:
`properties.name` and `geometry.coordinates = [lon, lat]`. -/
structure Feature where
  name : String
  lon : ℝ
  lat : ℝ

/-- The value accumulated by `computeNearest`'s loop:
`{feature, distance}`. -/
structure NearestResult where
  feature : Feature
  distance : ℝ

/-- Distance from the current position to a feature; the loop reads the
feature's coordinates as `[lonS, latS]` and calls
`distanceMeters(lat, lon, latS, lonS)`. -/
noncomputable def featDist (lat lon : ℝ) (f : Feature) : ℝ :=
  distanceMeters lat lon f.lat f.lon

/-- One iteration of `computeNearest`'s loop:
`if (!best || d < best.distance) best = {feature: feat, distance: d}`. -/
noncomputable def nearestStep (lat lon : ℝ) (best : Option NearestResult)
    (f : Feature) : Option NearestResult :=
  match best with
  | none => some ⟨f, featDist lat lon f⟩
  | some b =>
    if featDist lat lon f < b.distance then some ⟨f, featDist lat lon f⟩
    else some b

/-- `computeNearest` from `useLiveRoute.js`: `null` when the GeoJSON is
missing or its feature list is empty, otherwise the loop over all
features keeping the strictly closer one. -/
noncomputable def computeNearest (lat lon : ℝ) :
    Option (List Feature) → Option NearestResult
  | none => none
  | some [] => none
  | some fs => fs.foldl (nearestStep lat lon) none

/-- One call of `requestRoute`'s throttle check in `useLiveRoute.js`:
given the interval `throttleMs`, the stored `lastReqRef.current` and the
current time `now = Date.now()` (milliseconds), returns whether the
request proceeds and the new stored timestamp
(`if (now - lastReq < throttleMs) return null; lastReq = now`). -/
def requestRouteStep (throttleMs lastReq now : ℤ) : Bool × ℤ :=
  if now - lastReq < throttleMs then (false, lastReq) else (true, now)

/-- The times at which a sequence of throttle checks is granted, starting
from stored timestamp `lastReq` (initially 0, the `useRef(0)` value). -/
def throttleGrants (throttleMs : ℤ) : ℤ → List ℤ → List ℤ
  | _, [] => []
  | lastReq, t :: ts =>
    match requestRouteStep throttleMs lastReq t with
    | (true, l) => t :: throttleGrants throttleMs l ts
    | (false, l) => throttleGrants throttleMs l ts


end Frontend

namespace Frontend

/-- Every granted time in a throttle run from stored timestamp `lastReq`
is at least `lastReq + throttleMs`. -/
theorem throttleGrants_ge (I : ℤ) (hI : 0 ≤ I) :
    ∀ (ts : List ℤ) (lastReq g : ℤ), g ∈ throttleGrants I lastReq ts →
      lastReq + I ≤ g := by
  intro ts
  induction ts with
  | nil => intro lastReq g hg; simp [throttleGrants] at hg
  | cons t ts ih =>
    intro lastReq g hg
    by_cases h : t - lastReq < I
    · rw [throttleGrants, requestRouteStep, if_pos h] at hg
      exact ih lastReq g hg
    · rw [throttleGrants, requestRouteStep, if_neg h] at hg
      rcases List.mem_cons.mp hg with rfl | hg'
      · omega
      · have := ih t g hg'; omega

/-- In any throttle run, any two granted times are at least the interval
apart (in order of granting). -/
theorem throttleGrants_pairwise (I : ℤ) (hI : 0 ≤ I) :
    ∀ (ts : List ℤ) (lastReq : ℤ),
      (throttleGrants I lastReq ts).Pairwise (fun a b => I ≤ b - a) := by
  intro ts
  induction ts with
  | nil => intro lastReq; simp [throttleGrants]
  | cons t ts ih =>
    intro lastReq
    by_cases h : t - lastReq < I
    · rw [throttleGrants, requestRouteStep, if_pos h]
      exact ih lastReq
    · rw [throttleGrants, requestRouteStep, if_neg h]
      refine List.pairwise_cons.mpr ⟨?_, ih t⟩
      intro g hg
      have := throttleGrants_ge I hI ts t g hg
      omega

/-- C2 counterexample: `lastReqRef` is initialised to `0`, not to a
"never" sentinel, so from the initial state a first-ever permission
check at time 3999 with interval 4000 ms is denied — the initial state
does not always grant. -/
theorem requestRoute_throttle_cex :
    (requestRouteStep 4000 0 3999).1 = false ∧
    throttleGrants 4000 0 [3999] = [] := by
  decide

/-- C2 (amended): a throttle check at time `now` with stored timestamp
`lastReq` is granted iff `now - lastReq ≥ I`; the timestamp becomes
`now` exactly on grants and is unchanged on denials (which produce no
error, only a `null` return); in any run with a nonnegative interval,
any two granted times are at least `I` apart; and from any state whose
stored timestamp is `last4`, with `I = 4000` ms, a first granted check
at `t0` followed 3999 ms later yields exactly one permit, while
follow-up 4001 ms later yields two permits.  The initial stored
timestamp is `0`, so the first-ever check is granted iff its time is
already `≥ I` (true for real `Date.now()` clock values). -/
theorem requestRoute_throttle_spec (I lastReq now last4 t0 : ℤ) (ts : List ℤ)
    (hI : 0 ≤ I) (h0 : last4 + 4000 ≤ t0) :
    ((requestRouteStep I lastReq now).1 = true ↔ I ≤ now - lastReq) ∧
    ((requestRouteStep I lastReq now).1 = true →
      (requestRouteStep I lastReq now).2 = now) ∧
    ((requestRouteStep I lastReq now).1 = false →
      (requestRouteStep I lastReq now).2 = lastReq) ∧
    (throttleGrants I lastReq ts).Pairwise (fun a b => I ≤ b - a) ∧
    throttleGrants 4000 last4 [t0, t0 + 3999] = [t0] ∧
    throttleGrants 4000 last4 [t0, t0 + 4001] = [t0, t0 + 4001] := by
  have h1 : ¬(t0 - last4 < 4000) := by omega
  have h2 : t0 + 3999 - t0 < 4000 := by omega
  have h3 : ¬(t0 + 4001 - t0 < 4000) := by omega
  refine ⟨?_, ?_, ?_, throttleGrants_pairwise I hI ts lastReq, ?_, ?_⟩
  · unfold requestRouteStep; split_ifs with h <;> simp <;> omega
  · unfold requestRouteStep; split_ifs with h <;> simp
  · unfold requestRouteStep; split_ifs with h <;> simp
  · simp [throttleGrants, requestRouteStep, h1, h2]
  · simp [throttleGrants, requestRouteStep, h1, h3]

/-- Witness for `requestRoute_throttle_spec` at interval 5000 ms, a check
at time 7000 from timestamp 0, a run `[1, 9000]`, and scenario start
`t0 = 4000` from timestamp 0. -/
theorem requestRoute_throttle_spec_witness :
    (0 : ℤ) ≤ 5000 ∧ (0 : ℤ) + 4000 ≤ 4000 ∧
    (((requestRouteStep 5000 0 7000).1 = true ↔ (5000 : ℤ) ≤ 7000 - 0) ∧
    ((requestRouteStep 5000 0 7000).1 = true →
      (requestRouteStep 5000 0 7000).2 = 7000) ∧
    ((requestRouteStep 5000 0 7000).1 = false →
      (requestRouteStep 5000 0 7000).2 = 0) ∧
    (throttleGrants 5000 0 [1, 9000]).Pairwise (fun a b => (5000 : ℤ) ≤ b - a) ∧
    throttleGrants 4000 0 [4000, 4000 + 3999] = [4000] ∧
    throttleGrants 4000 0 [4000, 4000 + 4001] = [4000, 4000 + 4001]) :=
  ⟨by decide, by decide,
    requestRoute_throttle_spec 5000 0 7000 0 4000 [1, 9000] (by decide) (by decide)⟩

end Frontend

namespace Backend

/-- C6 (amended): in production (where the dev-only `POST /api/shelters`
route is not registered) no sequence of gateway operations changes the
shelter set, so `GET /api/shelters` always returns the same static
list. -/
theorem shelters_immutable_in_production (fs : List OrsShelter)
    (ops : List GatewayOp) :
    List.foldl (shelterStep true) fs ops = fs ∧
    listShelters (List.foldl (shelterStep true) fs ops) = listShelters fs := by
  have h : ∀ (ops : List GatewayOp) (fs : List OrsShelter),
      List.foldl (shelterStep true) fs ops = fs := by
    intro ops
    induction ops with
    | nil => intro fs; rfl
    | cons op ops ih =>
      intro fs
      have hstep : shelterStep true fs op = fs := by
        cases op <;> simp [shelterStep]
      rw [List.foldl_cons, hstep]
      exact ih fs
  exact ⟨h ops fs, by rw [h ops fs]⟩

/-- C6 counterexample: outside production the gateway exposes
`POST /api/shelters`, and one successful post changes the list that
`GET /api/shelters` returns — the shelter set is not immutable for such
a session. -/
theorem shelters_immutable_cex :
    listShelters (List.foldl (shelterStep false) initialShelters
      [GatewayOp.postShelter (some "X") (some ⟨0, 1⟩) (some ⟨0, 1⟩)]) ≠
    listShelters initialShelters := by
  decide

/-- C10: the dev-only `POST /api/shelters` responds 400 exactly when the
name is falsy (absent or empty) or `lon`/`lat` is not a finite number,
leaves the list unchanged in that case, and for every finite `lon` and
`lat` — with no coordinate-range check whatsoever — appends the shelter
and responds 201 with the updated list. -/
theorem postShelters_spec (fs : List OrsShelter) (name : Option String)
    (lon lat : Option JsNum) :
    ((postShelters fs name lon lat).1 = 400 ↔
      (name = none ∨ name = some "" ∨ lon = none ∨ lat = none)) ∧
    ((postShelters fs name lon lat).1 = 400 →
      (postShelters fs name lon lat).2 = fs) ∧
    (∀ n lo la, name = some n → lon = some lo → lat = some la → n ≠ "" →
      postShelters fs name lon lat = (201, fs ++ [⟨n, lo, la⟩])) := by
  rcases name with _ | n <;> rcases lon with _ | lo <;> rcases lat with _ | la <;>
    simp [postShelters]
  by_cases h : n = "" <;> simp [h]

/-- Witness for `postShelters_spec`: posting name `"X"` with the
out-of-range coordinates `lon = 999`, `lat = -95` is accepted with 201
and appends the shelter. -/
theorem postShelters_spec_witness :
    postShelters initialShelters (some "X") (some ⟨999, 1⟩) (some ⟨-95, 1⟩) =
      (201, initialShelters ++ [⟨"X", ⟨999, 1⟩, ⟨-95, 1⟩⟩]) :=
  (postShelters_spec initialShelters (some "X") (some ⟨999, 1⟩)
    (some ⟨-95, 1⟩)).2.2 "X" ⟨999, 1⟩ ⟨-95, 1⟩ rfl rfl rfl (by decide)

/-- C4 counterexample: the handler checks the provider credential before
validating the query, so with `ORS_API_KEY` unset a request with `start`
missing is answered 500, not 400. -/
theorem route_validation_cex :
    (handleRoute false 30 (.ok "data") [] 0 none (some "77.5933,12.9721")).1 =
      .err 500 "ORS_API_KEY not configured on server." ∧
    (handleRoute false 30 (.ok "data") [] 0 none
      (some "77.5933,12.9721")).1.statusCode ≠ 400 := by
  decide

/-- C4 (amended): with the provider credential configured, every request
reaching the route handler whose `start` or `end` is missing (or empty,
which JavaScript's falsy test treats alike) is answered 400 with the
message "start and end required as query params in \"lon,lat\" format"
— which begins with "start and end required" — and every request whose
`start` or `end` fails `isValidLonLatPair` (the lon/lat syntax and
range check) is answered 400 with the validation message; in both cases
the cache is untouched and the external provider is not called. -/
theorem route_validation_spec (ttl : ℤ) (prov : ProviderResult)
    (c : RouteCache) (now : ℤ) (startArg endArg : Option String) :
    (startArg = none ∨ startArg = some "" ∨ endArg = none ∨ endArg = some "" →
      handleRoute true ttl prov c now startArg endArg =
        (.err 400 "start and end required as query params in \"lon,lat\" format",
          c, false)) ∧
    (∀ s e, startArg = some s → endArg = some e → s ≠ "" → e ≠ "" →
      (isValidLonLatPair s = false ∨ isValidLonLatPair e = false) →
      handleRoute true ttl prov c now startArg endArg =
        (.err 400 "start and end must be valid lon,lat pairs (numbers). Example: start=77.5933,12.9721",
          c, false)) ∧
    "start and end required" ++ " as query params in \"lon,lat\" format" =
      "start and end required as query params in \"lon,lat\" format" := by
  refine ⟨?_, ?_, by decide⟩
  · intro h
    rcases h with h | h | h | h <;> subst h
    · cases endArg <;> simp [handleRoute]
    · cases endArg with
      | none => simp [handleRoute]
      | some e => simp [handleRoute]
    · cases startArg <;> simp [handleRoute]
    · cases startArg with
      | none => simp [handleRoute]
      | some s => simp [handleRoute]
  · intro s e hs he hsne hene hval
    subst hs; subst he
    rcases hval with h | h <;>
      simp [handleRoute, hsne, hene, h]

/-- Witness for `route_validation_spec`: a request with `start` missing
gets the 400 "required" answer, and `start = "abc,1"` (not a valid
pair) with a valid `end` gets the 400 validation answer. -/
theorem route_validation_spec_witness :
    handleRoute true 30 (.ok "data") [] 0 none (some "77.5933,12.9721") =
      (.err 400 "start and end required as query params in \"lon,lat\" format",
        [], false) ∧
    handleRoute true 30 (.ok "data") [] 0 (some "abc,1")
      (some "77.5933,12.9721") =
      (.err 400 "start and end must be valid lon,lat pairs (numbers). Example: start=77.5933,12.9721",
        [], false) :=
  ⟨(route_validation_spec 30 (.ok "data") [] 0 none
      (some "77.5933,12.9721")).1 (Or.inl rfl),
   (route_validation_spec 30 (.ok "data") [] 0 (some "abc,1")
      (some "77.5933,12.9721")).2.1 "abc,1" "77.5933,12.9721" rfl rfl
      (by decide) (by decide) (Or.inl (by decide))⟩

/-- C9: `Number('')` and `Number(' ')` are `0`, so the coordinate-pair
validator accepts `","` (both components empty, read as the coordinates
`(0, 0)`), and a route request with `start = ","` is not rejected with
400 — it goes through to the provider. -/
theorem comma_accepted_spec :
    isValidLonLatPair "," = true ∧
    jsFiniteNumber "" = some ⟨0, 1⟩ ∧
    jsFiniteNumber " " = some ⟨0, 1⟩ ∧
    JsNum.val ⟨0, 1⟩ = 0 ∧
    handleRoute true 30 (.ok "data") [] 0 (some ",") (some "77.5933,12.9721") =
      (.ok false "data", cacheSet [] ",|77.5933,12.9721" "data" 0, true) :=
  ⟨by decide, by decide, by decide, by norm_num [JsNum.val], by decide⟩

/-- Looking a key up right after storing it hits iff fewer than `ttl`
seconds have passed since the store. -/
theorem cacheGet_cacheSet (ttl now2 t0 : ℤ) (c : RouteCache) (k d0 : String) :
    cacheGet ttl now2 (cacheSet c k d0 t0) k =
      if now2 - t0 < ttl then some d0 else none := by
  simp [cacheGet, cacheSet, List.find?]

/-- C3: with a configured credential and valid non-empty `start`/`end`,
the route operation (i) serves a cache hit on the exact
`start|end` key as the stored provider payload tagged `fromCache:true`,
without touching the cache or calling the provider; (ii) on a cache
miss calls the provider and, on success, returns the payload tagged
`fromCache:false` and stores it under the exact key; (iii) an entry
stored at `t0` is still served strictly within the TTL window and
(iv) is missed once `ttl` has elapsed, so the same pair then triggers a
fresh provider call tagged `fromCache:false`. -/
theorem route_cache_spec (ttl : ℤ) (prov : ProviderResult) (c : RouteCache)
    (now t0 now2 : ℤ) (s e d d0 : String)
    (hs : isValidLonLatPair s = true) (he : isValidLonLatPair e = true)
    (hsne : s ≠ "") (hene : e ≠ "") :
    (cacheGet ttl now c (s ++ "|" ++ e) = some d →
      handleRoute true ttl prov c now (some s) (some e) = (.ok true d, c, false)) ∧
    (cacheGet ttl now c (s ++ "|" ++ e) = none →
      (handleRoute true ttl prov c now (some s) (some e)).2.2 = true) ∧
    (cacheGet ttl now c (s ++ "|" ++ e) = none → prov = .ok d →
      handleRoute true ttl prov c now (some s) (some e) =
        (.ok false d, cacheSet c (s ++ "|" ++ e) d now, true)) ∧
    (now2 - t0 < ttl →
      cacheGet ttl now2 (cacheSet c (s ++ "|" ++ e) d0 t0) (s ++ "|" ++ e) =
        some d0) ∧
    (ttl ≤ now2 - t0 →
      cacheGet ttl now2 (cacheSet c (s ++ "|" ++ e) d0 t0) (s ++ "|" ++ e) =
        none ∧
      handleRoute true ttl (.ok d) (cacheSet c (s ++ "|" ++ e) d0 t0) now2
        (some s) (some e) =
        (.ok false d,
          cacheSet (cacheSet c (s ++ "|" ++ e) d0 t0) (s ++ "|" ++ e) d now2,
          true)) := by
  have hmiss : ∀ (cc : RouteCache) (nn : ℤ),
      cacheGet ttl nn cc (s ++ "|" ++ e) = none →
      handleRoute true ttl (.ok d) cc nn (some s) (some e) =
        (.ok false d, cacheSet cc (s ++ "|" ++ e) d nn, true) := by
    intro cc nn hc
    simp [handleRoute, hs, he, hsne, hene, hc]
  refine ⟨?_, ?_, ?_, ?_, ?_⟩
  · intro hc; simp [handleRoute, hs, he, hsne, hene, hc]
  · intro hc
    cases prov <;> simp [handleRoute, hs, he, hsne, hene, hc]
  · intro hc hp; subst hp; exact hmiss c now hc
  · intro h; rw [cacheGet_cacheSet]; exact if_pos h
  · intro h
    have hn : cacheGet ttl now2 (cacheSet c (s ++ "|" ++ e) d0 t0)
        (s ++ "|" ++ e) = none := by
      rw [cacheGet_cacheSet]; exact if_neg (by omega)
    exact ⟨hn, hmiss _ now2 hn⟩

/-- Witness for `route_cache_spec` on the pair
`("77.5933,12.9721", "77.598,12.9755")` with TTL 30 s, an empty cache,
a store at time 0 and a second look at time 31. -/
theorem route_cache_spec_witness :
    (cacheGet 30 5 [] ("77.5933,12.9721" ++ "|" ++ "77.598,12.9755") =
        some "P" →
      handleRoute true 30 (.ok "Q") [] 5 (some "77.5933,12.9721")
        (some "77.598,12.9755") = (.ok true "P", [], false)) ∧
    (cacheGet 30 5 [] ("77.5933,12.9721" ++ "|" ++ "77.598,12.9755") = none →
      (handleRoute true 30 (.ok "Q") [] 5 (some "77.5933,12.9721")
        (some "77.598,12.9755")).2.2 = true) ∧
    (cacheGet 30 5 [] ("77.5933,12.9721" ++ "|" ++ "77.598,12.9755") = none →
      ProviderResult.ok "Q" = .ok "P" →
      handleRoute true 30 (.ok "Q") [] 5 (some "77.5933,12.9721")
        (some "77.598,12.9755") =
        (.ok false "P",
          cacheSet [] ("77.5933,12.9721" ++ "|" ++ "77.598,12.9755") "P" 5,
          true)) ∧
    ((31 : ℤ) - 0 < 30 →
      cacheGet 30 31
        (cacheSet [] ("77.5933,12.9721" ++ "|" ++ "77.598,12.9755") "P0" 0)
        ("77.5933,12.9721" ++ "|" ++ "77.598,12.9755") = some "P0") ∧
    ((30 : ℤ) ≤ 31 - 0 →
      cacheGet 30 31
        (cacheSet [] ("77.5933,12.9721" ++ "|" ++ "77.598,12.9755") "P0" 0)
        ("77.5933,12.9721" ++ "|" ++ "77.598,12.9755") = none ∧
      handleRoute true 30 (.ok "P")
        (cacheSet [] ("77.5933,12.9721" ++ "|" ++ "77.598,12.9755") "P0" 0) 31
        (some "77.5933,12.9721") (some "77.598,12.9755") =
        (.ok false "P",
          cacheSet
            (cacheSet [] ("77.5933,12.9721" ++ "|" ++ "77.598,12.9755") "P0" 0)
            ("77.5933,12.9721" ++ "|" ++ "77.598,12.9755") "P" 31,
          true)) :=
  route_cache_spec 30 (.ok "Q") [] 5 0 31 "77.5933,12.9721" "77.598,12.9755"
    "P" "P0" (by decide) (by decide) (by decide) (by decide)

/-- The limiter counts every incoming request, admitted or rejected. -/
theorem routePipeline_count (maxReq : ℕ) (hasKey : Bool) (ttl : ℤ)
    (prov : ProviderResult) (c : RouteCache) (now : ℤ)
    (startArg endArg : Option String) (count : ℕ) :
    (routePipeline maxReq hasKey ttl prov c now startArg endArg count).count =
      count + 1 := by
  unfold routePipeline; split_ifs <;> rfl

/-- Position `i` of a request run started at hit count `k` is admitted
iff `k + i < 60`, and rejected positions carry the 429 response. -/
theorem pipelineRun_getD (hasKey : Bool) (ttl : ℤ) :
    ∀ (as : List ReqArgs) (k : ℕ) (c : RouteCache) (i : ℕ), i < as.length →
      ((pipelineRun 60 hasKey ttl k c as).getD i (false, .err 0 "")).1 =
        decide (k + i < 60) ∧
      (60 ≤ k + i →
        ((pipelineRun 60 hasKey ttl k c as).getD i (false, .err 0 "")).2 =
          .err 429 "Too many requests, please try again later.") := by
  intro as
  induction as with
  | nil => intro k c i hi; simp at hi
  | cons a as ih =>
    intro k c i hi
    cases i with
    | zero =>
      simp only [pipelineRun, List.getD_cons_zero, Nat.add_zero]
      unfold routePipeline
      split_ifs with h
      · exact ⟨by simp [h], fun h2 => absurd h2 (by omega)⟩
      · exact ⟨by simp [h], fun _ => rfl⟩
    | succ j =>
      have hj : j < as.length := by
        have := hi; simp at this; omega
      simp only [pipelineRun, List.getD_cons_succ]
      rw [routePipeline_count]
      obtain ⟨g1, g2⟩ := ih (k + 1)
        (routePipeline 60 hasKey ttl a.prov c a.now a.startArg a.endArg k).cache
        j hj
      have he : k + 1 + j = k + (j + 1) := by omega
      rw [he] at g1 g2
      exact ⟨g1, g2⟩

/-- C5: for one client within one rate-limit window with the default
ceiling 60, in any sequence of route requests the first 60 (positions
0–59) pass the limiter and reach the handler, while position 60 (the
61st request) and every later one is rejected by the limiter with the
429 rate-limit response — regardless of the cache contents `c`, i.e.
independent of whether the request would have been a cache hit. -/
theorem routeLimiter_spec (hasKey : Bool) (ttl : ℤ) (c : RouteCache)
    (as : List ReqArgs) (i : ℕ) (hi : i < as.length) :
    (i < 60 →
      ((pipelineRun 60 hasKey ttl 0 c as).getD i (false, .err 0 "")).1 = true) ∧
    (60 ≤ i →
      ((pipelineRun 60 hasKey ttl 0 c as).getD i (false, .err 0 "")).1 = false ∧
      ((pipelineRun 60 hasKey ttl 0 c as).getD i (false, .err 0 "")).2 =
        .err 429 "Too many requests, please try again later.") := by
  obtain ⟨h1, h2⟩ := pipelineRun_getD hasKey ttl as 0 c i hi
  rw [Nat.zero_add] at h1 h2
  refine ⟨fun h => ?_, fun h => ⟨?_, h2 h⟩⟩
  · rw [h1]; simpa using h
  · rw [h1]; simpa using by omega

/-- Witness for `routeLimiter_spec`: in a run of 61 identical requests
the request at position 60 (the 61st) is rejected with 429. -/
theorem routeLimiter_spec_witness :
    ((60 : ℕ) < 60 →
      ((pipelineRun 60 true 30 0 []
        (List.replicate 61 ⟨.ok "d", 0, none, none⟩)).getD 60
        (false, .err 0 "")).1 = true) ∧
    ((60 : ℕ) ≤ 60 →
      ((pipelineRun 60 true 30 0 []
        (List.replicate 61 ⟨.ok "d", 0, none, none⟩)).getD 60
        (false, .err 0 "")).1 = false ∧
      ((pipelineRun 60 true 30 0 []
        (List.replicate 61 ⟨.ok "d", 0, none, none⟩)).getD 60
        (false, .err 0 "")).2 =
        .err 429 "Too many requests, please try again later.") :=
  routeLimiter_spec true 30 []
    (List.replicate 61 ⟨.ok "d", 0, none, none⟩) 60 (by simp)

end Backend

namespace Frontend

open Real

/-- `Math.atan2` of a nonnegative ordinate is nonnegative (the angle lies
in the closed upper half plane, `[0, π]`). -/
theorem atan2_nonneg (y x : ℝ) (hy : 0 ≤ y) : 0 ≤ atan2 y x := by
  have ha := Real.neg_pi_div_two_lt_arctan (y / x)
  have hp := Real.pi_pos
  unfold atan2
  rcases lt_trichotomy x 0 with hx | hx | hx
  · rw [if_neg (by linarith), if_pos hx, if_pos hy]
    linarith
  · subst hx
    rw [if_neg (lt_irrefl 0), if_neg (lt_irrefl 0)]
    by_cases hy0 : 0 < y
    · rw [if_pos hy0]; linarith
    · rw [if_neg hy0, if_neg (by intro h; linarith)]
  · rw [if_pos hx]
    have h : Real.arctan 0 ≤ Real.arctan (y / x) :=
      Real.arctan_strictMono.monotone (div_nonneg hy hx.le)
    simpa using h

/-- `|sin x| ≤ |x|` on the reals. -/
theorem abs_sin_le_abs (x : ℝ) : |Real.sin x| ≤ |x| := by
  have key : ∀ t : ℝ, 0 ≤ t → |Real.sin t| ≤ t := by
    intro t ht
    rcases lt_or_le t 1 with h1 | h1
    · have hs : 0 ≤ Real.sin t :=
        Real.sin_nonneg_of_nonneg_of_le_pi ht (by nlinarith [Real.pi_gt_three])
      rw [abs_of_nonneg hs]
      rcases eq_or_lt_of_le ht with heq | hlt
      · rw [← heq]; simp
      · exact (Real.sin_lt hlt).le
    · calc |Real.sin t| ≤ 1 := abs_le.mpr ⟨by linarith [Real.neg_one_le_sin t],
        Real.sin_le_one t⟩
      _ ≤ t := h1
  rcases le_or_lt 0 x with hx | hx
  · rw [abs_of_nonneg hx]; exact key x hx
  · have h := key (-x) (by linarith)
    rw [Real.sin_neg, abs_neg] at h
    rw [abs_of_neg hx]; exact h

/-- `sin² x ≤ x²` on the reals. -/
theorem sin_sq_le_sq (x : ℝ) : Real.sin x ^ 2 ≤ x ^ 2 := by
  calc Real.sin x ^ 2 = |Real.sin x| ^ 2 := (sq_abs _).symm
    _ ≤ |x| ^ 2 := pow_le_pow_left₀ (abs_nonneg _) (abs_sin_le_abs x) 2
    _ = x ^ 2 := sq_abs x

/-- The haversine argument `a` is symmetric in the two endpoints. -/
theorem havA_symm (lat1 lon1 lat2 lon2 : ℝ) :
    havA lat1 lon1 lat2 lon2 = havA lat2 lon2 lat1 lon1 := by
  unfold havA toRad
  rw [show (lat1 - lat2) * π / 180 / 2 = -((lat2 - lat1) * π / 180 / 2) by ring,
      show (lon1 - lon2) * π / 180 / 2 = -((lon2 - lon1) * π / 180 / 2) by ring,
      Real.sin_neg, Real.sin_neg]
  ring

/-- C7: the geodesic distance function is symmetric — swapping the two
latitude/longitude pairs gives the same value — and always
nonnegative. -/
theorem distanceMeters_symm_nonneg (lat1 lon1 lat2 lon2 : ℝ) :
    distanceMeters lat1 lon1 lat2 lon2 = distanceMeters lat2 lon2 lat1 lon1 ∧
    0 ≤ distanceMeters lat1 lon1 lat2 lon2 := by
  constructor
  · unfold distanceMeters
    rw [havA_symm]
  · unfold distanceMeters
    have h := atan2_nonneg (Real.sqrt (havA lat1 lon1 lat2 lon2))
      (Real.sqrt (1 - havA lat1 lon1 lat2 lon2))
      (Real.sqrt_nonneg (havA lat1 lon1 lat2 lon2))
    have h2 : (0 : ℝ) ≤ 2 * atan2 (Real.sqrt (havA lat1 lon1 lat2 lon2))
        (Real.sqrt (1 - havA lat1 lon1 lat2 lon2)) := by linarith
    nlinarith

/-- Invariant of `computeNearest`'s loop: folding the step over any
feature list from accumulator `some b` yields `some r` where `r` is no
farther than `b` and than any feature of the list, and `r` is either
`b` itself or the entry of the first feature that is strictly closer
than everything before it (the first feature attaining the overall
minimum, when that minimum beats `b`). -/
theorem foldl_nearestStep_spec (lat lon : ℝ) :
    ∀ (fs : List Feature) (b : NearestResult),
      ∃ r : NearestResult,
        fs.foldl (nearestStep lat lon) (some b) = some r ∧
        r.distance ≤ b.distance ∧
        (∀ j (hj : j < fs.length),
          r.distance ≤ featDist lat lon (fs.get ⟨j, hj⟩)) ∧
        (r = b ∨ ∃ i, ∃ hi : i < fs.length,
          r = ⟨fs.get ⟨i, hi⟩, featDist lat lon (fs.get ⟨i, hi⟩)⟩ ∧
          featDist lat lon (fs.get ⟨i, hi⟩) < b.distance ∧
          ∀ j (hj : j < i), featDist lat lon (fs.get ⟨i, hi⟩) <
            featDist lat lon (fs.get ⟨j, hj.trans hi⟩)) := by
  intro fs
  induction fs with
  | nil =>
    intro b
    exact ⟨b, rfl, le_refl _, fun j hj => absurd hj (by simp), Or.inl rfl⟩
  | cons f t ih =>
    intro b
    by_cases hd : featDist lat lon f < b.distance
    · obtain ⟨r, hr, hrle, hrall, hrcases⟩ := ih ⟨f, featDist lat lon f⟩
      refine ⟨r, ?_, le_trans hrle (le_of_lt hd), ?_, ?_⟩
      · rw [List.foldl_cons,
          show nearestStep lat lon (some b) f = some ⟨f, featDist lat lon f⟩
            from by simp [nearestStep, hd]]
        exact hr
      · intro j hj
        cases j with
        | zero => exact hrle
        | succ j => exact hrall j (Nat.lt_of_succ_lt_succ hj)
      · rcases hrcases with rfl | ⟨i, hi, hri, hlt, hfirst⟩
        · refine Or.inr ⟨0, Nat.succ_pos _, rfl, hd, ?_⟩
          intro j hj; exact absurd hj (Nat.not_lt_zero j)
        · refine Or.inr ⟨i + 1, Nat.succ_lt_succ hi, hri, lt_trans hlt hd, ?_⟩
          intro j hj
          cases j with
          | zero => exact hlt
          | succ j => exact hfirst j (Nat.lt_of_succ_lt_succ hj)
    · obtain ⟨r, hr, hrle, hrall, hrcases⟩ := ih b
      refine ⟨r, ?_, hrle, ?_, ?_⟩
      · rw [List.foldl_cons,
          show nearestStep lat lon (some b) f = some b
            from by simp [nearestStep, hd]]
        exact hr
      · intro j hj
        cases j with
        | zero => exact le_trans hrle (not_lt.mp hd)
        | succ j => exact hrall j (Nat.lt_of_succ_lt_succ hj)
      · rcases hrcases with rfl | ⟨i, hi, hri, hlt, hfirst⟩
        · exact Or.inl rfl
        · refine Or.inr ⟨i + 1, Nat.succ_lt_succ hi, hri, hlt, ?_⟩
          intro j hj
          cases j with
          | zero => exact lt_of_lt_of_le hlt (not_lt.mp hd)
          | succ j => exact hfirst j (Nat.lt_of_succ_lt_succ hj)

/-- C1: `computeNearest` returns `null` for a missing GeoJSON or an
empty feature list; for a non-empty list it returns the entry of some
feature whose recorded distance — the haversine distance to that
feature — is a minimum of the independently computed per-feature
distances, and every earlier feature is strictly farther, so ties are
broken in favour of the first-encountered feature in input order. -/
theorem computeNearest_spec (lat lon : ℝ) (fs : List Feature) (h : fs ≠ []) :
    computeNearest lat lon none = none ∧
    computeNearest lat lon (some []) = none ∧
    ∃ i, ∃ hi : i < fs.length,
      computeNearest lat lon (some fs) =
        some ⟨fs.get ⟨i, hi⟩, featDist lat lon (fs.get ⟨i, hi⟩)⟩ ∧
      (∀ j (hj : j < fs.length),
        featDist lat lon (fs.get ⟨i, hi⟩) ≤ featDist lat lon (fs.get ⟨j, hj⟩)) ∧
      (∀ j (hj : j < i),
        featDist lat lon (fs.get ⟨i, hi⟩) <
          featDist lat lon (fs.get ⟨j, hj.trans hi⟩)) := by
  refine ⟨rfl, rfl, ?_⟩
  rcases fs with _ | ⟨f, t⟩
  · exact absurd rfl h
  · have hcn : computeNearest lat lon (some (f :: t)) =
        t.foldl (nearestStep lat lon) (some ⟨f, featDist lat lon f⟩) := rfl
    obtain ⟨r, hr, hrle, hrall, hrcases⟩ :=
      foldl_nearestStep_spec lat lon t ⟨f, featDist lat lon f⟩
    rcases hrcases with rfl | ⟨i, hi, hri, hlt, hfirst⟩
    · refine ⟨0, Nat.succ_pos _, ?_, ?_, ?_⟩
      · rw [hcn, hr]; rfl
      · intro j hj
        cases j with
        | zero => exact le_refl _
        | succ j => exact hrall j (Nat.lt_of_succ_lt_succ hj)
      · intro j hj; exact absurd hj (Nat.not_lt_zero j)
    · subst hri
      refine ⟨i + 1, Nat.succ_lt_succ hi, ?_, ?_, ?_⟩
      · rw [hcn, hr]; rfl
      · intro j hj
        cases j with
        | zero => exact hrle
        | succ j => exact hrall j (Nat.lt_of_succ_lt_succ hj)
      · intro j hj
        cases j with
        | zero => exact hlt
        | succ j => exact hfirst j (Nat.lt_of_succ_lt_succ hj)

/-- Witness for `computeNearest_spec` on the one-feature list
`[⟨"X", 0, 0⟩]` and position `(1, 2)`. -/
theorem computeNearest_spec_witness :
    ([⟨"X", 0, 0⟩] : List Feature) ≠ [] ∧
    (computeNearest 1 2 none = none ∧
     computeNearest 1 2 (some []) = none ∧
     ∃ i, ∃ hi : i < ([⟨"X", 0, 0⟩] : List Feature).length,
       computeNearest 1 2 (some [⟨"X", 0, 0⟩]) =
         some ⟨([⟨"X", 0, 0⟩] : List Feature).get ⟨i, hi⟩,
           featDist 1 2 (([⟨"X", 0, 0⟩] : List Feature).get ⟨i, hi⟩)⟩ ∧
       (∀ j (hj : j < ([⟨"X", 0, 0⟩] : List Feature).length),
         featDist 1 2 (([⟨"X", 0, 0⟩] : List Feature).get ⟨i, hi⟩) ≤
           featDist 1 2 (([⟨"X", 0, 0⟩] : List Feature).get ⟨j, hj⟩)) ∧
       (∀ j (hj : j < i),
         featDist 1 2 (([⟨"X", 0, 0⟩] : List Feature).get ⟨i, hi⟩) <
           featDist 1 2 (([⟨"X", 0, 0⟩] : List Feature).get ⟨j, hj.trans hi⟩))) :=
  ⟨by simp, computeNearest_spec 1 2 [⟨"X", 0, 0⟩] (by simp)⟩

/-- The haversine central angle `2·atan2(√a, √(1−a))` is strictly
monotone in the haversine value on `[0, 1)`. -/
theorem havc_lt {a b : ℝ} (h0 : 0 ≤ a) (hab : a < b) (hb1 : b < 1) :
    atan2 (Real.sqrt a) (Real.sqrt (1 - a)) <
      atan2 (Real.sqrt b) (Real.sqrt (1 - b)) := by
  have h1a : 0 < 1 - a := by linarith
  have h1b : 0 < 1 - b := by linarith
  have hxa : 0 < Real.sqrt (1 - a) := Real.sqrt_pos.mpr h1a
  have hxb : 0 < Real.sqrt (1 - b) := Real.sqrt_pos.mpr h1b
  have hsa : Real.sqrt a < Real.sqrt b := Real.sqrt_lt_sqrt h0 hab
  have hsb : Real.sqrt (1 - b) ≤ Real.sqrt (1 - a) :=
    Real.sqrt_le_sqrt (by linarith)
  unfold atan2
  rw [if_pos hxa, if_pos hxb]
  apply Real.arctan_strictMono
  rw [div_lt_div_iff₀ hxa hxb]
  exact lt_of_lt_of_le (mul_lt_mul_of_pos_right hsa hxb)
    (mul_le_mul_of_nonneg_left hsb (Real.sqrt_nonneg b))

/-- Strictly smaller haversine value (within `[0, 1)`) means strictly
smaller haversine distance. -/
theorem distanceMeters_lt (plat plon alat alon blat blon : ℝ)
    (h0 : 0 ≤ havA plat plon alat alon)
    (hab : havA plat plon alat alon < havA plat plon blat blon)
    (hb1 : havA plat plon blat blon < 1) :
    distanceMeters plat plon alat alon < distanceMeters plat plon blat blon := by
  unfold distanceMeters
  have h := havc_lt h0 hab hb1
  linarith

/-- For a latitude between 0 and 13 degrees the cosine of its radian
value is positive. -/
theorem cos_toRad_pos {d : ℝ} (h0 : 0 ≤ d) (h13 : d ≤ 13) :
    0 < Real.cos (toRad d) := by
  have hp := Real.pi_pos
  apply Real.cos_pos_of_mem_Ioo
  constructor
  · unfold toRad
    have h2 : 0 ≤ d * π := mul_nonneg h0 hp.le
    linarith
  · unfold toRad
    have h1 : d * π ≤ 13 * π := mul_le_mul_of_nonneg_right h13 hp.le
    linarith

set_option maxHeartbeats 1600000 in
/-- C8: on the spec's scenario — shelters A at (12.9721, 77.5933) and B
at (12.9755, 77.5980), current position (12.9730, 77.5940) — the
haversine distance to A is strictly smaller than to B, and
`computeNearest` returns shelter "A" with that distance. -/
theorem computeNearest_scenario :
    distanceMeters 12.9730 77.5940 12.9721 77.5933 <
      distanceMeters 12.9730 77.5940 12.9755 77.5980 ∧
    computeNearest 12.9730 77.5940
      (some [⟨"A", 77.5933, 12.9721⟩, ⟨"B", 77.5980, 12.9755⟩]) =
      some ⟨⟨"A", 77.5933, 12.9721⟩,
        distanceMeters 12.9730 77.5940 12.9721 77.5933⟩ := by
  have hp3 : (3 : ℝ) < π := Real.pi_gt_three
  have hp315 : π < 3.15 := Real.pi_lt_d2
  have hppos : (0 : ℝ) < π := by linarith
  have hpi2 : π ^ 2 < 9.9225 := by nlinarith
  have hc1 : 0 < Real.cos (toRad 12.9730) :=
    cos_toRad_pos (by norm_num) (by norm_num)
  have hc2 : 0 < Real.cos (toRad 12.9721) :=
    cos_toRad_pos (by norm_num) (by norm_num)
  have hc3 : 0 < Real.cos (toRad 12.9755) :=
    cos_toRad_pos (by norm_num) (by norm_num)
  have hc1' := Real.cos_le_one (toRad 12.9730)
  have hc2' := Real.cos_le_one (toRad 12.9721)
  have hc3' := Real.cos_le_one (toRad 12.9755)
  have htA : toRad (12.9721 - 12.9730) / 2 = -(0.0009 * π / 360) := by
    unfold toRad
    rw [show (12.9721 : ℝ) - 12.9730 = -0.0009 by norm_num]
    ring
  have huA : toRad (77.5933 - 77.5940) / 2 = -(0.0007 * π / 360) := by
    unfold toRad
    rw [show (77.5933 : ℝ) - 77.5940 = -0.0007 by norm_num]
    ring
  have htB : toRad (12.9755 - 12.9730) / 2 = 0.0025 * π / 360 := by
    unfold toRad
    rw [show (12.9755 : ℝ) - 12.9730 = 0.0025 by norm_num]
    ring
  have huB : toRad (77.5980 - 77.5940) / 2 = 0.0040 * π / 360 := by
    unfold toRad
    rw [show (77.5980 : ℝ) - 77.5940 = 0.0040 by norm_num]
    ring
  -- upper bound for the haversine value towards A
  have hA_ub : havA 12.9730 77.5940 12.9721 77.5933 ≤
      (0.0009 * π / 360) ^ 2 + (0.0007 * π / 360) ^ 2 := by
    unfold havA
    rw [htA, huA]
    have e1 := sin_sq_le_sq (-(0.0009 * π / 360))
    have e2 := sin_sq_le_sq (-(0.0007 * π / 360))
    have e3 : Real.cos (toRad 12.9730) * Real.cos (toRad 12.9721) ≤ 1 :=
      mul_le_one₀ hc1' hc2.le hc2'
    have e5 : (0 : ℝ) ≤ Real.sin (-(0.0007 * π / 360)) ^ 2 := sq_nonneg _
    nlinarith [mul_nonneg (sub_nonneg.mpr e3) e5]
  have hA_lb : 0 ≤ havA 12.9730 77.5940 12.9721 77.5933 := by
    unfold havA
    have e4 : 0 < Real.cos (toRad 12.9730) * Real.cos (toRad 12.9721) :=
      mul_pos hc1 hc2
    nlinarith [sq_nonneg (Real.sin (toRad (12.9721 - 12.9730) / 2)),
      sq_nonneg (Real.sin (toRad (77.5933 - 77.5940) / 2))]
  -- lower bound for the haversine value towards B, via Jordan's inequality
  have htBpos : (0 : ℝ) ≤ 0.0025 * π / 360 := by nlinarith
  have htBle : 0.0025 * π / 360 ≤ π / 2 := by nlinarith
  have hJ : 2 / π * (0.0025 * π / 360) ≤ Real.sin (0.0025 * π / 360) :=
    Real.mul_le_sin htBpos htBle
  have hpne : π ≠ 0 := ne_of_gt hppos
  have hJval : 2 / π * (0.0025 * π / 360) = 1 / 72000 := by
    field_simp
    ring
  have hsinB : (1 : ℝ) / 72000 ≤ Real.sin (0.0025 * π / 360) := by
    rw [← hJval]; exact hJ
  have hsinB2 : ((1 : ℝ) / 72000) ^ 2 ≤ Real.sin (0.0025 * π / 360) ^ 2 :=
    pow_le_pow_left₀ (by norm_num) hsinB 2
  have hB_lb : ((1 : ℝ) / 72000) ^ 2 ≤ havA 12.9730 77.5940 12.9755 77.5980 := by
    unfold havA
    rw [htB]
    have e4 : 0 < Real.cos (toRad 12.9730) * Real.cos (toRad 12.9755) :=
      mul_pos hc1 hc3
    have e5 : (0 : ℝ) ≤ Real.cos (toRad 12.9730) * Real.cos (toRad 12.9755) *
        Real.sin (toRad (77.5980 - 77.5940) / 2) ^ 2 :=
      mul_nonneg e4.le (sq_nonneg _)
    linarith [hsinB2, e5]
  -- upper bound for the haversine value towards B (to stay below 1)
  have hB_ub : havA 12.9730 77.5940 12.9755 77.5980 ≤
      (0.0025 * π / 360) ^ 2 + (0.0040 * π / 360) ^ 2 := by
    unfold havA
    rw [htB, huB]
    have e1 := sin_sq_le_sq (0.0025 * π / 360)
    have e2 := sin_sq_le_sq (0.0040 * π / 360)
    have e3 : Real.cos (toRad 12.9730) * Real.cos (toRad 12.9755) ≤ 1 :=
      mul_le_one₀ hc1' hc3.le hc3'
    have e5 : (0 : ℝ) ≤ Real.sin (0.0040 * π / 360) ^ 2 := sq_nonneg _
    nlinarith [mul_nonneg (sub_nonneg.mpr e3) e5]
  have hB1 : havA 12.9730 77.5940 12.9755 77.5980 < 1 := by
    nlinarith [hB_ub, hpi2]
  have hAB : havA 12.9730 77.5940 12.9721 77.5933 <
      havA 12.9730 77.5940 12.9755 77.5980 := by
    nlinarith [hA_ub, hB_lb, hpi2]
  have hlt : distanceMeters 12.9730 77.5940 12.9721 77.5933 <
      distanceMeters 12.9730 77.5940 12.9755 77.5980 :=
    distanceMeters_lt _ _ _ _ _ _ hA_lb hAB hB1
  refine ⟨hlt, ?_⟩
  have hnot : ¬ (featDist 12.9730 77.5940 ⟨"B", 77.5980, 12.9755⟩ <
      (⟨⟨"A", 77.5933, 12.9721⟩,
        featDist 12.9730 77.5940 ⟨"A", 77.5933, 12.9721⟩⟩ :
        NearestResult).distance) := not_lt.mpr hlt.le
  have hstep1 : nearestStep 12.9730 77.5940 none ⟨"A", 77.5933, 12.9721⟩ =
      some ⟨⟨"A", 77.5933, 12.9721⟩,
        featDist 12.9730 77.5940 ⟨"A", 77.5933, 12.9721⟩⟩ := rfl
  have hstep2 : nearestStep 12.9730 77.5940
      (some ⟨⟨"A", 77.5933, 12.9721⟩,
        featDist 12.9730 77.5940 ⟨"A", 77.5933, 12.9721⟩⟩)
      ⟨"B", 77.5980, 12.9755⟩ =
      some ⟨⟨"A", 77.5933, 12.9721⟩,
        featDist 12.9730 77.5940 ⟨"A", 77.5933, 12.9721⟩⟩ := by
    simp only [nearestStep]
    rw [if_neg hnot]
  have hfold : computeNearest 12.9730 77.5940
      (some [⟨"A", 77.5933, 12.9721⟩, ⟨"B", 77.5980, 12.9755⟩]) =
      nearestStep 12.9730 77.5940
        (nearestStep 12.9730 77.5940 none ⟨"A", 77.5933, 12.9721⟩)
        ⟨"B", 77.5980, 12.9755⟩ := rfl
  rw [hfold, hstep1, hstep2]
  rfl

end Frontend

